import Mathlib

/-!
Shallow embedding of the repository-opening layer of the rapi package
(files part_000 and part_001 of the source: `ReadRepo`, `OpenRepository`,
`parseConfig` and the two variants of `open`).

External collaborators (location.Parse, options.Apply, backend.Transport,
the driver factories, be.Stat, repository.New, repository.SearchKey,
cache.New, cache.Old, fs.RemoveAll, textfile.Read) are not part of the
source sample; their outcomes are supplied by an environment record `Env`,
one field per call site, so the control flow of the sampled code is
modelled exactly while the collaborators stay free.

Backends are modelled as the tree of decorator wrappers applied over the
driver selected for the location scheme, mirroring the wrapping calls
`logger.New`, `sema.NewBackend`, `retry.New` and `limiter.LimitBackend`.
Side effects that the claims talk about (warnings, verbose hints, the
SearchKey invocation, cache creation and use, removal of old cache
directories) are recorded as an event trace.  Message format strings are
abbreviated to fixed prefixes; the dynamic parts that matter to the
claims (error text, directory names, SearchKey arguments) are kept.
-/

/-- Error values: `errors.Fatal`/`errors.Fatalf` produce fatal errors, every
other error is carried as a plain message. -/
inductive RError where
  | fatal (msg : String)
  | other (msg : String)
deriving Repr, DecidableEq

/-- Result of a function of the sampled code returning `(T, error)`. -/
inductive Res (α : Type) where
  | ok (a : α)
  | err (e : RError)
deriving Repr, DecidableEq

/-- Result of an external call returning `(T, error)` where the error is
opaque to the sampled code and carried along as a message. -/
inductive ExtRes (α : Type) where
  | ok (a : α)
  | err (msg : String)
deriving Repr, DecidableEq

/-- Result of `textfile.Read`: the code distinguishes `os.ErrNotExist`
from other errors via `errors.Is`. -/
inductive TextReadResult where
  | ok (s : String)
  | notExist
  | fail (msg : String)
deriving Repr, DecidableEq

/-- Result of `location.Parse`: only the scheme is inspected by the sampled
code (the backend-specific config travels to collaborators). -/
structure Location where
  Scheme : String
deriving Repr, DecidableEq

/-- Result of `be.Stat` on the config handle. -/
structure FileInfo where
  Size : Int
deriving Repr, DecidableEq

/-- Result of `cache.New`. -/
structure Cache where
  Created : Bool
  Base : String
deriving Repr, DecidableEq

/-- A backend as a tree of decorators over a scheme-selected driver:
`base s` is the driver opened for scheme `s` (`factory.Open` in the
registry variant, the `switch` arm in the other); `sema` is
`sema.NewBackend`, `logger` is `logger.New`, `limit` is
`limiter.LimitBackend`, and `retry` is `retry.New` carrying the maximum
number of retries and whether a report and a success callback were
installed. -/
inductive Backend where
  | base (scheme : String)
  | sema (inner : Backend)
  | logger (inner : Backend)
  | limit (inner : Backend)
  | retry (inner : Backend) (maxRetries : Nat) (hasReport : Bool) (hasSuccess : Bool)
deriving Repr, DecidableEq

/-- The scheme of the driver at the bottom of a decorator tree. -/
def baseScheme : Backend → String
  | .base sc => sc
  | .sema b => baseScheme b
  | .logger b => baseScheme b
  | .limit b => baseScheme b
  | .retry b _ _ _ => baseScheme b

/-- The repository value returned by `OpenRepository`: the wrapped backend
handed to `repository.New`, the pack size computed from the options, and
whether `UseCache` was invoked on it. -/
structure Repository where
  be : Backend
  packSize : Nat
  hasCache : Bool
deriving Repr, DecidableEq

/-- Observable side effects of `OpenRepository`, in order of emission. -/
inductive Event where
  | openCall (repo : String)
  | searchKey (password : String) (maxKeys : Nat) (keyHint : String)
  | warn (msg : String)
  | verbose (msg : String)
  | cacheNew
  | useCache
  | removeAll (dir : String)
deriving Repr, DecidableEq

/-- Outcomes of the external calls made by the sampled code, one field per
call site. -/
structure Env where
  textRead : String → TextReadResult
  parse : String → ExtRes Location
  parseConfigRegistry : Location → Res Unit
  parseConfigSwitch : Location → Res Unit
  transport : ExtRes Unit
  lookup : String → Bool
  factoryOpen : String → ExtRes Unit
  driverOpen : String → ExtRes Unit
  statConfig : ExtRes FileInfo
  repoNew : Res Unit
  searchKey : ExtRes Unit
  cacheNew : ExtRes Cache
  cacheOld : ExtRes (List String)
  removeAll : String → ExtRes Unit

/-- Test hooks: the unexported `backendTestHook`/`backendInnerTestHook`
fields, `nil` except in tests. -/
def BackendHook := Option (Backend → Res Backend)

/-- RepositoryOptions of the sampled code, restricted to the fields its
control flow reads (`Extended`/transport/limit options travel to the
environment's collaborators unchanged). -/
structure RepositoryOptions where
  Repo : String
  RepositoryFile : String
  KeyHint : String
  JSON : Bool
  CacheDir : String
  NoCache : Bool
  CleanupCache : Bool
  PackSize : Nat
  Password : String
  backendTestHook : BackendHook
  backendInnerTestHook : BackendHook

/-- ReadRepo: requires a repository location from `Repo` or
`RepositoryFile` (mutually exclusive), reading and trimming the file in
the latter case. -/
def ReadRepo (env : Env) (opts : RepositoryOptions) : Res String :=
  if opts.Repo = "" ∧ opts.RepositoryFile = "" then
    .err (.fatal "Please specify repository location (-r or --repository-file)")
  else if opts.RepositoryFile ≠ "" then
    if opts.Repo ≠ "" then
      .err (.fatal "Options -r and --repository-file are mutually exclusive, please specify only one")
    else
      match env.textRead opts.RepositoryFile with
      | .notExist => .err (.fatal (opts.RepositoryFile ++ " does not exist"))
      | .fail m => .err (.other m)
      | .ok s => .ok s.trim
  else
    .ok opts.Repo

/-- The constant bounding how many key files `SearchKey` tries. -/
def maxKeys : Nat := 20

/-- Application of a test hook to a backend (identity when the hook is nil). -/
def applyHook (h : BackendHook) (be : Backend) : Res Backend :=
  match h with
  | none => .ok be
  | some f => f be

/-- The registry variant of `open` (part_000): parse the location, apply
backend options, build the rate-limited transport, look the scheme up in
the registry, open the driver, wrap it as `logger.New(sema.NewBackend(be))`,
apply the inner test hook, and accept the backend only if `Stat` on the
config handle succeeds with a nonzero size. -/
def openRegistry (env : Env) (s : String) (gopts : RepositoryOptions) : Res Backend :=
  match env.parse s with
  | .err e => .err (.fatal ("parsing repository location failed: " ++ e))
  | .ok loc =>
    match env.parseConfigRegistry loc with
    | .err e => .err e
    | .ok _ =>
      match env.transport with
      | .err e => .err (.fatal e)
      | .ok _ =>
        if env.lookup loc.Scheme then
          match env.factoryOpen loc.Scheme with
          | .err e => .err (.fatal ("unable to open repository: " ++ e))
          | .ok _ =>
            match applyHook gopts.backendInnerTestHook (.logger (.sema (.base loc.Scheme))) with
            | .err e => .err e
            | .ok be =>
              match env.statConfig with
              | .err e => .err (.fatal ("unable to open config file: " ++ e))
              | .ok fi =>
                if fi.Size = 0 then
                  .err (.other "config file has zero size, invalid repository?")
                else
                  .ok be
        else
          .err (.fatal ("invalid backend: " ++ s))

/-- The schemes handled by the hardcoded switch of the part_001 variant. -/
def switchSchemes : List String :=
  ["local", "sftp", "s3", "gs", "azure", "swift", "b2", "rest", "rclone"]

/-- The hardcoded-switch variant of `open` (part_001): parse the location,
apply the per-scheme `parseConfig`, build the rate-limited transport,
dispatch on the scheme to a driver, apply the inner test hook, wrap the
backend in `limiter.LimitBackend` only for the `local` and `sftp` schemes
(no logger or sema wrapper), and run the same config-file check. -/
def openSwitch (env : Env) (s : String) (gopts : RepositoryOptions) : Res Backend :=
  match env.parse s with
  | .err e => .err (.fatal ("parsing repository location failed: " ++ e))
  | .ok loc =>
    match env.parseConfigSwitch loc with
    | .err e => .err e
    | .ok _ =>
      match env.transport with
      | .err e => .err (.other e)
      | .ok _ =>
        if loc.Scheme ∈ switchSchemes then
          match env.driverOpen loc.Scheme with
          | .err e => .err (.fatal ("unable to open repository: " ++ e))
          | .ok _ =>
            match applyHook gopts.backendInnerTestHook (.base loc.Scheme) with
            | .err e => .err e
            | .ok be =>
              let be := if loc.Scheme = "local" ∨ loc.Scheme = "sftp" then .limit be else be
              match env.statConfig with
              | .err e => .err (.fatal ("unable to open config file: " ++ e))
              | .ok fi =>
                if fi.Size = 0 then
                  .err (.other "config file has zero size, invalid repository?")
                else
                  .ok be
        else
          .err (.fatal ("invalid backend: " ++ loc.Scheme))

/-- The cache portion of `OpenRepository` after a successful `cache.New`:
optional creation notice, `UseCache`, enumeration of old cache
directories via `cache.Old`, and either their removal (when
`CleanupCache` is set) or a hint message. -/
def cacheEvents (env : Env) (opts : RepositoryOptions) (c : Cache) : List Event :=
  (if c.Created && !opts.JSON then [Event.verbose "created new cache"] else [])
  ++ [Event.useCache]
  ++ (match env.cacheOld with
      | .err m => [Event.warn ("unable to find old cache directories: " ++ m)]
      | .ok _ => [])
  ++ (let dirs := match env.cacheOld with
        | .err _ => []
        | .ok l => l
      if dirs = [] then []
      else if opts.CleanupCache then
        (if !opts.JSON then [Event.verbose "removing old cache dirs"] else [])
        ++ dirs.flatMap (fun d =>
            Event.removeAll (c.Base ++ "/" ++ d) ::
            (match env.removeAll d with
             | .err m => [Event.warn ("unable to remove: " ++ m)]
             | .ok _ => []))
      else
        (if !opts.JSON then
          [Event.verbose "found old cache directories, run restic cache --cleanup to remove them"]
        else []))

/-- The cache stage of `OpenRepository`: `cache.New` failure is non-fatal
(a warning, and the repository is returned without a cache); on success
the cache is attached with `UseCache` and old directories are handled. -/
def cacheStage (env : Env) (opts : RepositoryOptions) (s : Repository) :
    List Event × Repository :=
  match env.cacheNew with
  | .err m => ([Event.cacheNew, Event.warn ("unable to open cache: " ++ m)], s)
  | .ok c => (Event.cacheNew :: cacheEvents env opts c, { s with hasCache := true })

/-- The part of `OpenRepository` after `open` returned a backend: wrap it
with `retry.New(be, 10, report, success)`, apply the test hook, build the
repository via `repository.New`, invoke `SearchKey` (a failure only clears
the password and warns), then the cache stage unless `NoCache` is set. -/
def postOpen (env : Env) (opts : RepositoryOptions) (be0 : Backend) :
    List Event × Res Repository :=
  match applyHook opts.backendTestHook (.retry be0 10 true true) with
  | .err e => ([], .err e)
  | .ok be =>
    match env.repoNew with
    | .err e => ([], .err e)
    | .ok _ =>
      let s : Repository :=
        { be := be, packSize := opts.PackSize * 1024 * 1024, hasCache := false }
      let ev := Event.searchKey opts.Password maxKeys opts.KeyHint ::
        (match env.searchKey with
         | .err m => [Event.warn ("unable to search repository key: " ++ m)]
         | .ok _ => [])
      if opts.NoCache then
        (ev, .ok s)
      else
        let r := cacheStage env opts s
        (ev ++ r.1, .ok r.2)

/-- OpenRepository (part_000 variant): read the repository location, open
the backend through the registry `open`, and run the post-open pipeline.
The part_001 variant differs only in field naming and in calling the
switch variant of `open`. -/
def OpenRepository (env : Env) (opts : RepositoryOptions) :
    List Event × Res Repository :=
  match ReadRepo env opts with
  | .err e => ([], .err e)
  | .ok repo =>
    match openRegistry env repo opts with
    | .err e => ([Event.openCall repo], .err e)
    | .ok be =>
      let r := postOpen env opts be
      (Event.openCall repo :: r.1, r.2)

/-- Modelled from the spec: the backend retry package (`retry.New`) is not
part of the source sample.  Per the spec, the retry wrapper retries a
failing operation with exponential backoff up to the maximum number of
attempts, invokes the report callback between tries, and invokes the
success callback after a retried operation recovers.  `retryRun m f` runs
an operation that fails its first `f` attempts and then succeeds, under a
wrapper allowing `m` attempts. -/
def retryRun (maxAttempts failures : Nat) : Bool × Nat × Nat :=
  if failures < maxAttempts then
    (true, failures, if 0 < failures then 1 else 0)
  else
    (false, maxAttempts - 1, 0)

/-- An environment in which every external call succeeds: the location
parses to the `local` scheme, the registry knows that scheme, the config
file exists with a nonzero size, and the cache opens with no old sibling
directories. -/
def envOK : Env where
  textRead := fun _ => .ok ""
  parse := fun _ => .ok { Scheme := "local" }
  parseConfigRegistry := fun _ => .ok ()
  parseConfigSwitch := fun _ => .ok ()
  transport := .ok ()
  lookup := fun sc => sc == "local"
  factoryOpen := fun _ => .ok ()
  driverOpen := fun _ => .ok ()
  statConfig := .ok { Size := 42 }
  repoNew := .ok ()
  searchKey := .ok ()
  cacheNew := .ok { Created := false, Base := "/cache" }
  cacheOld := .ok []
  removeAll := fun _ => .ok ()

/-- Options with a repository location, a password and no flags set. -/
def optsBase : RepositoryOptions where
  Repo := "/repo"
  RepositoryFile := ""
  KeyHint := ""
  JSON := false
  CacheDir := ""
  NoCache := false
  CleanupCache := false
  PackSize := 16
  Password := "p"
  backendTestHook := none
  backendInnerTestHook := none

/-- Options as `optsBase` with the `NoCache` flag set. -/
def optsNC : RepositoryOptions :=
  { optsBase with NoCache := true }

/-- Environment as `envOK` except that `SearchKey` fails: no key file
matches the supplied password. -/
def envNoKey : Env :=
  { envOK with searchKey := .err "no key found" }

example :
    (OpenRepository envOK optsNC).2 =
      .ok { be := .retry (.logger (.sema (.base "local"))) 10 true true,
            packSize := 16 * 1024 * 1024, hasCache := false } := by decide

example :
    (OpenRepository envNoKey optsNC).2 =
      .ok { be := .retry (.logger (.sema (.base "local"))) 10 true true,
            packSize := 16 * 1024 * 1024, hasCache := false } := by decide

example :
    openSwitch envOK "/repo" optsBase = .ok (.limit (.base "local")) := by decide

example :
    (OpenRepository envOK optsBase).1 =
      [Event.openCall "/repo", Event.searchKey "p" 20 "",
       Event.cacheNew, Event.useCache] := by decide

/-- Helper: when every stage of the registry variant succeeds and the inner
test hook is nil, `openRegistry` returns the driver wrapped as
`logger.New(sema.NewBackend(be))`. -/
theorem openRegistry_success (env : Env) (s : String) (gopts : RepositoryOptions)
    (loc : Location) (fi : FileInfo)
    (hp : env.parse s = ExtRes.ok loc)
    (hc : env.parseConfigRegistry loc = Res.ok ())
    (ht : env.transport = ExtRes.ok ())
    (hl : env.lookup loc.Scheme = true)
    (hf : env.factoryOpen loc.Scheme = ExtRes.ok ())
    (hh : gopts.backendInnerTestHook = none)
    (hs : env.statConfig = ExtRes.ok fi)
    (hz : fi.Size ≠ 0) :
    openRegistry env s gopts = Res.ok (.logger (.sema (.base loc.Scheme))) := by
  simp [openRegistry, hp, hc, ht, hl, hf, applyHook, hh, hs, hz]

/-- Helper: when every stage of the switch variant succeeds and the inner
test hook is nil, `openSwitch` returns the bare driver, wrapped in
`limiter.LimitBackend` exactly for the `local` and `sftp` schemes. -/
theorem openSwitch_success (env : Env) (s : String) (gopts : RepositoryOptions)
    (loc : Location) (fi : FileInfo)
    (hp : env.parse s = ExtRes.ok loc)
    (hc : env.parseConfigSwitch loc = Res.ok ())
    (ht : env.transport = ExtRes.ok ())
    (hsw : loc.Scheme ∈ switchSchemes)
    (hd : env.driverOpen loc.Scheme = ExtRes.ok ())
    (hh : gopts.backendInnerTestHook = none)
    (hs : env.statConfig = ExtRes.ok fi)
    (hz : fi.Size ≠ 0) :
    openSwitch env s gopts =
      Res.ok (if loc.Scheme = "local" ∨ loc.Scheme = "sftp"
              then .limit (.base loc.Scheme) else .base loc.Scheme) := by
  simp [openSwitch, hp, hc, ht, hsw, hd, applyHook, hh, hs, hz]

/-- Helper: the cache stage never changes the wrapped backend of the
repository it is given. -/
theorem cacheStage_be (env : Env) (opts : RepositoryOptions) (s : Repository) :
    (cacheStage env opts s).2.be = s.be := by
  unfold cacheStage
  cases env.cacheNew <;> simp

/-- Helper: a successful `openRegistry` implies that `Stat` on the config
handle succeeded with a nonzero size. -/
theorem openRegistry_ok_stat (env : Env) (s : String) (gopts : RepositoryOptions)
    (be : Backend) (h : openRegistry env s gopts = Res.ok be) :
    ∃ fi, env.statConfig = ExtRes.ok fi ∧ fi.Size ≠ 0 := by
  unfold openRegistry at h
  repeat' split at h
  all_goals simp_all

/-- Helper: a successful `openSwitch` implies that `Stat` on the config
handle succeeded with a nonzero size. -/
theorem openSwitch_ok_stat (env : Env) (s : String) (gopts : RepositoryOptions)
    (be : Backend) (h : openSwitch env s gopts = Res.ok be) :
    ∃ fi, env.statConfig = ExtRes.ok fi ∧ fi.Size ≠ 0 := by
  unfold openSwitch at h
  repeat' split at h
  all_goals simp_all

/-- C1, counterexample: in an environment where every external call
succeeds except `SearchKey` (no key file matches the password),
`OpenRepository` still returns a usable repository value instead of
failing — refuting the claim that the failure is surfaced as an error. -/
theorem C1_counterexample :
    envNoKey.searchKey = ExtRes.err "no key found" ∧
    (OpenRepository envNoKey optsNC).2 =
      Res.ok { be := .retry (.logger (.sema (.base "local"))) 10 true true,
               packSize := 16 * 1024 * 1024, hasCache := false } := by
  decide

/-- C1, amended: when `SearchKey` fails, `OpenRepository` does not fail;
it emits a warning (and clears the in-memory password) and returns the
successfully opened repository anyway. -/
theorem C1_searchkey_failure_not_fatal (env : Env) (opts : RepositoryOptions)
    (r : String) (be : Backend) (m : String)
    (h1 : ReadRepo env opts = Res.ok r)
    (h2 : openRegistry env r opts = Res.ok be)
    (h3 : opts.backendTestHook = none)
    (h4 : env.repoNew = Res.ok ())
    (h5 : env.searchKey = ExtRes.err m) :
    (∃ s, (OpenRepository env opts).2 = Res.ok s) ∧
    Event.warn ("unable to search repository key: " ++ m) ∈
      (OpenRepository env opts).1 := by
  constructor
  · simp only [OpenRepository, h1, h2, postOpen, h3, applyHook, h4]
    cases hnc : opts.NoCache <;> simp
  · simp only [OpenRepository, h1, h2, postOpen, h3, applyHook, h4, h5]
    cases hnc : opts.NoCache <;> simp

/-- C1, witness: the amended statement at the concrete no-key environment. -/
theorem C1_witness :
    Event.warn ("unable to search repository key: " ++ "no key found") ∈
      (OpenRepository envNoKey optsNC).1 :=
  (C1_searchkey_failure_not_fatal envNoKey optsNC "/repo"
    (.logger (.sema (.base "local"))) "no key found"
    (by decide) (by decide) rfl (by decide) (by decide)).2

/-- C2, counterexample: at a concrete successful open, the backend handed
to `repository.New` is `retry(logger(sema(driver)))`, which differs from
the claimed composition `retry(sema(logger(driver)))` (logger innermost):
the innermost wrapper is sema, not logger. -/
theorem C2_counterexample :
    (OpenRepository envOK optsNC).2 =
      Res.ok { be := .retry (.logger (.sema (.base "local"))) 10 true true,
               packSize := 16 * 1024 * 1024, hasCache := false } ∧
    Backend.retry (.logger (.sema (.base "local"))) 10 true true ≠
      Backend.retry (.sema (.logger (.base "local"))) 10 true true := by
  decide

/-- C2, amended: the decorators are composed in the fixed order, innermost
to outermost, sema, then logger, then retry (the cache is attached to the
repository rather than wrapped around the backend, and the rate limiter
sits at the HTTP transport). -/
theorem C2_wrapper_order (env : Env) (opts : RepositoryOptions)
    (r : String) (loc : Location) (fi : FileInfo)
    (h1 : ReadRepo env opts = Res.ok r)
    (hp : env.parse r = ExtRes.ok loc)
    (hc : env.parseConfigRegistry loc = Res.ok ())
    (ht : env.transport = ExtRes.ok ())
    (hl : env.lookup loc.Scheme = true)
    (hf : env.factoryOpen loc.Scheme = ExtRes.ok ())
    (hh : opts.backendInnerTestHook = none)
    (hs : env.statConfig = ExtRes.ok fi)
    (hz : fi.Size ≠ 0)
    (h3 : opts.backendTestHook = none)
    (h4 : env.repoNew = Res.ok ()) :
    ∃ s, (OpenRepository env opts).2 = Res.ok s ∧
      s.be = .retry (.logger (.sema (.base loc.Scheme))) 10 true true := by
  have h2 := openRegistry_success env r opts loc fi hp hc ht hl hf hh hs hz
  simp only [OpenRepository, h1, h2, postOpen, h3, applyHook, h4]
  cases hnc : opts.NoCache <;> simp [cacheStage_be]

/-- C2, witness: the amended wrapper order at a concrete successful open. -/
theorem C2_witness :
    ∃ s, (OpenRepository envOK optsNC).2 = Res.ok s ∧
      s.be = .retry (.logger (.sema (.base "local"))) 10 true true :=
  C2_wrapper_order envOK optsNC "/repo" { Scheme := "local" } { Size := 42 }
    (by decide) (by decide) (by decide) (by decide) (by decide) (by decide)
    rfl (by decide) (by decide) rfl (by decide)

/-- C5: key search is invoked with the constant limit `maxKeys = 20`,
together with the supplied password and key hint. -/
theorem C5_search_key_limit (env : Env) (opts : RepositoryOptions)
    (r : String) (be : Backend)
    (h1 : ReadRepo env opts = Res.ok r)
    (h2 : openRegistry env r opts = Res.ok be)
    (h3 : opts.backendTestHook = none)
    (h4 : env.repoNew = Res.ok ()) :
    maxKeys = 20 ∧
    Event.searchKey opts.Password 20 opts.KeyHint ∈ (OpenRepository env opts).1 := by
  refine ⟨rfl, ?_⟩
  simp only [OpenRepository, h1, h2, postOpen, h3, applyHook, h4, maxKeys]
  cases hnc : opts.NoCache <;> simp

/-- C5, witness: the SearchKey invocation at a concrete successful open. -/
theorem C5_witness :
    maxKeys = 20 ∧
    Event.searchKey "p" 20 "" ∈ (OpenRepository envOK optsBase).1 :=
  C5_search_key_limit envOK optsBase "/repo" (.logger (.sema (.base "local")))
    (by decide) (by decide) rfl (by decide)

/-- C6: with both `Repo` and `RepositoryFile` empty, `ReadRepo` returns the
fatal error asking for a repository location, `OpenRepository` returns the
same error, and its event trace is empty — in particular no backend open
is ever attempted. -/
theorem C6_missing_location (env : Env) (opts : RepositoryOptions)
    (h1 : opts.Repo = "") (h2 : opts.RepositoryFile = "") :
    ReadRepo env opts =
      Res.err (.fatal "Please specify repository location (-r or --repository-file)") ∧
    OpenRepository env opts =
      ([], Res.err (.fatal "Please specify repository location (-r or --repository-file)")) := by
  have hr : ReadRepo env opts =
      Res.err (.fatal "Please specify repository location (-r or --repository-file)") := by
    simp [ReadRepo, h1, h2]
  exact ⟨hr, by simp [OpenRepository, hr]⟩

/-- C6, witness: the fatal error at concrete options with no location. -/
theorem C6_witness :
    ReadRepo envOK { optsBase with Repo := "" } =
      Res.err (.fatal "Please specify repository location (-r or --repository-file)") ∧
    OpenRepository envOK { optsBase with Repo := "" } =
      ([], Res.err (.fatal "Please specify repository location (-r or --repository-file)")) :=
  C6_missing_location envOK { optsBase with Repo := "" } rfl rfl

/-- C3, counterexample: for the `local` scheme with identical options in
an environment where both variants succeed, the registry variant returns
`logger(sema(driver))` while the switch variant returns
`LimitBackend(driver)` — the wrapper compositions are not equivalent. -/
theorem C3_counterexample :
    openRegistry envOK "/repo" optsBase = Res.ok (.logger (.sema (.base "local"))) ∧
    openSwitch envOK "/repo" optsBase = Res.ok (.limit (.base "local")) ∧
    Backend.logger (.sema (.base "local")) ≠ Backend.limit (.base "local") := by
  decide

/-- C3, amended: for every supported scheme with identical options where
both variants succeed, they select the same driver, but their wrapper
compositions differ: the registry variant wraps it as `logger(sema(·))`,
while the switch variant applies no logger or sema wrapper and wraps
`LimitBackend(·)` exactly for the `local` and `sftp` schemes. -/
theorem C3_same_driver_wrappers_differ (env : Env) (s : String)
    (gopts : RepositoryOptions) (loc : Location) (fi : FileInfo)
    (hp : env.parse s = ExtRes.ok loc)
    (hcr : env.parseConfigRegistry loc = Res.ok ())
    (hcs : env.parseConfigSwitch loc = Res.ok ())
    (ht : env.transport = ExtRes.ok ())
    (hl : env.lookup loc.Scheme = true)
    (hf : env.factoryOpen loc.Scheme = ExtRes.ok ())
    (hsw : loc.Scheme ∈ switchSchemes)
    (hd : env.driverOpen loc.Scheme = ExtRes.ok ())
    (hh : gopts.backendInnerTestHook = none)
    (hs : env.statConfig = ExtRes.ok fi)
    (hz : fi.Size ≠ 0) :
    ∃ b1 b2, openRegistry env s gopts = Res.ok b1 ∧
      openSwitch env s gopts = Res.ok b2 ∧
      baseScheme b1 = baseScheme b2 ∧
      b1 = .logger (.sema (.base loc.Scheme)) ∧
      b2 = (if loc.Scheme = "local" ∨ loc.Scheme = "sftp"
            then .limit (.base loc.Scheme) else .base loc.Scheme) := by
  refine ⟨_, _, openRegistry_success env s gopts loc fi hp hcr ht hl hf hh hs hz,
    openSwitch_success env s gopts loc fi hp hcs ht hsw hd hh hs hz, ?_, rfl, rfl⟩
  by_cases h : loc.Scheme = "local" ∨ loc.Scheme = "sftp" <;> simp [baseScheme, h]

/-- C3, witness: the amended statement at the concrete `local` scheme. -/
theorem C3_witness :
    ∃ b1 b2, openRegistry envOK "/repo" optsBase = Res.ok b1 ∧
      openSwitch envOK "/repo" optsBase = Res.ok b2 ∧
      baseScheme b1 = baseScheme b2 ∧
      b1 = .logger (.sema (.base "local")) ∧
      b2 = (if ("local" : String) = "local" ∨ ("local" : String) = "sftp"
            then .limit (.base "local") else .base "local") :=
  C3_same_driver_wrappers_differ envOK "/repo" optsBase
    { Scheme := "local" } { Size := 42 }
    (by decide) (by decide) (by decide) (by decide) (by decide) (by decide)
    (by decide) (by decide) rfl (by decide) (by decide)

/-- C4: `OpenRepository` wraps the opened backend as
`retry.New(be, 10, report, success)` — a maximum of 10 retries with a
report and a success callback installed — and, per the spec model of the
retry package, an operation failing its first `f` attempts under that
wrapper recovers with the report callback invoked `f` times between tries
and the success callback invoked once after recovery. -/
theorem C4_retry_wrapper (env : Env) (opts : RepositoryOptions)
    (r : String) (be : Backend)
    (h1 : ReadRepo env opts = Res.ok r)
    (h2 : openRegistry env r opts = Res.ok be)
    (h3 : opts.backendTestHook = none)
    (h4 : env.repoNew = Res.ok ()) :
    (∃ s, (OpenRepository env opts).2 = Res.ok s ∧
       s.be = Backend.retry be 10 true true) ∧
    (∀ f, 0 < f → f < 10 → retryRun 10 f = (true, f, 1)) := by
  constructor
  · simp only [OpenRepository, h1, h2, postOpen, h3, applyHook, h4]
    cases hnc : opts.NoCache <;> simp [cacheStage_be]
  · intro f hf hlt
    simp [retryRun, hf, hlt]

/-- C4, witness: the retry wrapper at a concrete successful open. -/
theorem C4_witness :
    (∃ s, (OpenRepository envOK optsNC).2 = Res.ok s ∧
       s.be = Backend.retry (.logger (.sema (.base "local"))) 10 true true) ∧
    (∀ f, 0 < f → f < 10 → retryRun 10 f = (true, f, 1)) :=
  C4_retry_wrapper envOK optsNC "/repo" (.logger (.sema (.base "local")))
    (by decide) (by decide) rfl (by decide)

/-- C7: with `NoCache` set, a successful `OpenRepository` returns the
repository with no cache attached and the trace contains neither a
`cache.New` nor a `UseCache` invocation. -/
theorem C7_nocache_skips_cache (env : Env) (opts : RepositoryOptions)
    (r : String) (be : Backend)
    (h1 : ReadRepo env opts = Res.ok r)
    (h2 : openRegistry env r opts = Res.ok be)
    (h3 : opts.backendTestHook = none)
    (h4 : env.repoNew = Res.ok ())
    (h5 : opts.NoCache = true) :
    ∃ s, (OpenRepository env opts).2 = Res.ok s ∧ s.hasCache = false ∧
      Event.cacheNew ∉ (OpenRepository env opts).1 ∧
      Event.useCache ∉ (OpenRepository env opts).1 := by
  simp only [OpenRepository, h1, h2, postOpen, h3, applyHook, h4, h5]
  cases hsk : env.searchKey <;> simp

/-- C7, witness: the no-cache open at the concrete environment. -/
theorem C7_witness :
    ∃ s, (OpenRepository envOK optsNC).2 = Res.ok s ∧ s.hasCache = false ∧
      Event.cacheNew ∉ (OpenRepository envOK optsNC).1 ∧
      Event.useCache ∉ (OpenRepository envOK optsNC).1 :=
  C7_nocache_skips_cache envOK optsNC "/repo" (.logger (.sema (.base "local")))
    (by decide) (by decide) rfl (by decide) rfl

/-- C9: both variants of `open` accept a backend only when `Stat` on the
config handle succeeded and reported a nonzero size: every backend they
return holds a config file of nonzero size. -/
theorem C9_config_nonzero :
    (∀ env s gopts be, openRegistry env s gopts = Res.ok be →
       ∃ fi, env.statConfig = ExtRes.ok fi ∧ fi.Size ≠ 0) ∧
    (∀ env s gopts be, openSwitch env s gopts = Res.ok be →
       ∃ fi, env.statConfig = ExtRes.ok fi ∧ fi.Size ≠ 0) :=
  ⟨openRegistry_ok_stat, openSwitch_ok_stat⟩

/-- C9, witness: the nonzero-size consequence at a concrete successful
open of each variant. -/
theorem C9_witness :
    (∃ fi, envOK.statConfig = ExtRes.ok fi ∧ fi.Size ≠ 0) ∧
    (∃ fi, envOK.statConfig = ExtRes.ok fi ∧ fi.Size ≠ 0) :=
  ⟨C9_config_nonzero.1 envOK "/repo" optsBase (.logger (.sema (.base "local"))) (by decide),
   C9_config_nonzero.2 envOK "/repo" optsBase (.limit (.base "local")) (by decide)⟩

/-- Environment as `envOK` except that `cache.New` fails. -/
def envCacheFail : Env :=
  { envOK with cacheNew := .err "permission denied" }

/-- C10: a failure of `cache.New` is non-fatal: `OpenRepository` warns and
returns the successfully opened repository without a cache. -/
theorem C10_cache_error_nonfatal (env : Env) (opts : RepositoryOptions)
    (r : String) (be : Backend) (m : String)
    (h1 : ReadRepo env opts = Res.ok r)
    (h2 : openRegistry env r opts = Res.ok be)
    (h3 : opts.backendTestHook = none)
    (h4 : env.repoNew = Res.ok ())
    (h5 : opts.NoCache = false)
    (h6 : env.cacheNew = ExtRes.err m) :
    ∃ s, (OpenRepository env opts).2 = Res.ok s ∧ s.hasCache = false ∧
      Event.warn ("unable to open cache: " ++ m) ∈ (OpenRepository env opts).1 ∧
      Event.useCache ∉ (OpenRepository env opts).1 := by
  simp only [OpenRepository, h1, h2, postOpen, h3, applyHook, h4, h5,
    cacheStage, h6]
  cases hsk : env.searchKey <;> simp

/-- C10, witness: the non-fatal cache failure at the concrete environment. -/
theorem C10_witness :
    ∃ s, (OpenRepository envCacheFail optsBase).2 = Res.ok s ∧ s.hasCache = false ∧
      Event.warn ("unable to open cache: " ++ "permission denied") ∈
        (OpenRepository envCacheFail optsBase).1 ∧
      Event.useCache ∉ (OpenRepository envCacheFail optsBase).1 :=
  C10_cache_error_nonfatal envCacheFail optsBase "/repo"
    (.logger (.sema (.base "local"))) "permission denied"
    (by decide) (by decide) rfl (by decide) rfl (by decide)

/-- Helper: with `CleanupCache` unset, the cache stage emits no
`fs.RemoveAll` call. -/
theorem cacheEvents_no_removeAll (env : Env) (opts : RepositoryOptions) (c : Cache)
    (hcc : opts.CleanupCache = false) (d : String) :
    Event.removeAll d ∉ cacheEvents env opts c := by
  simp only [cacheEvents, hcc]
  cases hco : env.cacheOld <;> simp

/-- Helper: with `CleanupCache` unset and old cache directories present,
the cache stage emits the cleanup hint. -/
theorem cacheEvents_hint (env : Env) (opts : RepositoryOptions) (c : Cache)
    (dirs : List String)
    (hcc : opts.CleanupCache = false) (hco : env.cacheOld = ExtRes.ok dirs)
    (hne : dirs ≠ []) (hj : opts.JSON = false) :
    Event.verbose "found old cache directories, run restic cache --cleanup to remove them" ∈
      cacheEvents env opts c := by
  simp [cacheEvents, hcc, hco, hne, hj]

/-- Helper: with `CleanupCache` set, the cache stage emits an
`fs.RemoveAll` call for every old cache directory. -/
theorem cacheEvents_removes (env : Env) (opts : RepositoryOptions) (c : Cache)
    (dirs : List String) (d : String)
    (hcc : opts.CleanupCache = true) (hco : env.cacheOld = ExtRes.ok dirs)
    (hd : d ∈ dirs) :
    Event.removeAll (c.Base ++ "/" ++ d) ∈ cacheEvents env opts c := by
  have hne : dirs ≠ [] := by rintro rfl; simp at hd
  simp [cacheEvents, hcc, hco, hne, List.mem_flatMap]
  exact ⟨d, hd, Or.inl rfl⟩

/-- C8: old sibling cache directories are removed only when `CleanupCache`
is set: when it is unset no `fs.RemoveAll` call happens at all and, if old
directories were found, only a hint message is printed; when it is set,
every old directory found by `cache.Old` is removed. -/
theorem C8_cleanup_cache_gate (env : Env) (opts : RepositoryOptions)
    (r : String) (be : Backend)
    (h1 : ReadRepo env opts = Res.ok r)
    (h2 : openRegistry env r opts = Res.ok be)
    (h3 : opts.backendTestHook = none)
    (h4 : env.repoNew = Res.ok ())
    (h5 : opts.NoCache = false) :
    (opts.CleanupCache = false →
       ∀ d, Event.removeAll d ∉ (OpenRepository env opts).1) ∧
    (∀ c dirs, env.cacheNew = ExtRes.ok c → env.cacheOld = ExtRes.ok dirs →
       opts.CleanupCache = false → dirs ≠ [] → opts.JSON = false →
       Event.verbose "found old cache directories, run restic cache --cleanup to remove them" ∈
         (OpenRepository env opts).1) ∧
    (∀ c dirs, env.cacheNew = ExtRes.ok c → env.cacheOld = ExtRes.ok dirs →
       opts.CleanupCache = true →
       ∀ d ∈ dirs, Event.removeAll (c.Base ++ "/" ++ d) ∈ (OpenRepository env opts).1) := by
  refine ⟨?_, ?_, ?_⟩
  · intro hcc d
    simp only [OpenRepository, h1, h2, postOpen, h3, applyHook, h4, h5]
    cases hsk : env.searchKey <;>
    · cases hcn : env.cacheNew with
      | err m => simp [cacheStage, hcn]
      | ok c => simp [cacheStage, hcn, cacheEvents_no_removeAll env opts c hcc d]
  · intro c dirs hcn hco hcc hne hj
    simp only [OpenRepository, h1, h2, postOpen, h3, applyHook, h4, h5, cacheStage, hcn]
    cases hsk : env.searchKey <;>
      simp [cacheEvents_hint env opts c dirs hcc hco hne hj]
  · intro c dirs hcn hco hcc d hd
    simp only [OpenRepository, h1, h2, postOpen, h3, applyHook, h4, h5, cacheStage, hcn]
    cases hsk : env.searchKey <;>
      simp [cacheEvents_removes env opts c dirs d hcc hco hd]

/-- Environment as `envOK` except that one old sibling cache directory is
found by `cache.Old`. -/
def envOldDirs : Env :=
  { envOK with cacheOld := .ok ["deadbeef"] }

/-- Options as `optsBase` with the `CleanupCache` flag set. -/
def optsCC : RepositoryOptions :=
  { optsBase with CleanupCache := true }

/-- C8, witness: with `CleanupCache` set, the old directory found by
`cache.Old` is removed at the concrete environment. -/
theorem C8_witness :
    Event.removeAll ("/cache" ++ "/" ++ "deadbeef") ∈
      (OpenRepository envOldDirs optsCC).1 :=
  (C8_cleanup_cache_gate envOldDirs optsCC "/repo" (.logger (.sema (.base "local")))
    (by decide) (by decide) rfl (by decide) rfl).2.2
    { Created := false, Base := "/cache" } ["deadbeef"] rfl rfl rfl
    "deadbeef" (by decide)
